import Mathlib

/-!
Shallow embedding of the VoiceCloneMemo generation service
(`src/Scripts/server.py`) and its CLI client (`src/Skills/local-tts/speak.py`).

Paths are modelled as strings joined with `/` in the way `os.path.join`
joins them; existence checks (`os.path.exists`) are modelled by membership
of the normalised path in an explicit list of existing files.  The voice
registry (`~/qwen3-tts/voices`) is modelled as an association list from
directory name to directory contents.  The inference model, the WAV encoder
and the HTTP transport are oracles passed in as functions, so that theorems
can quantify over their success or failure.
-/

/-- Split a character list into segments at each `/` character. -/
def splitSegs : List Char → List (List Char)
  | [] => [[]]
  | c :: rest =>
    let r := splitSegs rest
    if c = '/' then [] :: r
    else
      match r with
      | [] => [[c]]
      | s :: ss => (c :: s) :: ss

/-- Path components of a string path, empty components dropped. -/
def splitPath (p : String) : List String :=
  ((splitSegs p.toList).map (fun s => String.mk s)).filter (fun s => !(s == ""))

/-- Whether a path is absolute, as `os.path` decides it on POSIX. -/
def isAbsolutePath (p : String) : Bool :=
  match p.toList with
  | '/' :: _ => true
  | _ => false

/-- `os.path.join a b` on POSIX: an absolute `b` discards `a`. -/
def joinPath (a b : String) : String :=
  if isAbsolutePath b then b else a ++ "/" ++ b

/-- Resolve `.` and `..` components the way the kernel resolves them when a
path is actually opened (`..` at the root stays at the root). -/
def normalizeSegs (segs : List String) : List String :=
  segs.foldl
    (fun acc s =>
      if s = "." then acc
      else if s = ".." then acc.dropLast
      else acc ++ [s]) []

/-- Normalised components of a path string. -/
def normPath (p : String) : List String :=
  normalizeSegs (splitPath p)

/-- Whether the segment list `as` leads the segment list `bs`. -/
def underSegs : List String → List String → Bool
  | [], _ => true
  | _ :: _, [] => false
  | a :: as, b :: bs => (a == b) && underSegs as bs

/-- Whether the resolved path `p` lies inside the directory `dir`. -/
def insideDir (dir p : String) : Bool :=
  underSegs (normPath dir) (normPath p)

/-- A filesystem for existence checks: the normalised paths that exist. -/
abbrev Fs := List (List String)

/-- `os.path.exists`, against the explicit filesystem. -/
def pathExists (fs : Fs) (p : String) : Bool :=
  fs.contains (normPath p)

/-- `os.path.expanduser` home prefix; the concrete value is machine
dependent and no theorem depends on it. -/
def HOME : String := "/Users/local"

/-- `MODEL_PATH = os.path.expanduser("~/qwen3-tts/model-1.7b")` in server.py. -/
def MODEL_PATH : String := joinPath HOME ("qwen3-tts/model-1.7b")

/-- `VOICES_DIR = os.path.expanduser("~/qwen3-tts/voices")` in server.py. -/
def VOICES_DIR : String := joinPath HOME ("qwen3-tts/voices")

/-- `OUTPUT_DIR = os.path.expanduser("~/qwen3-tts/output")` in server.py. -/
def OUTPUT_DIR : String := joinPath HOME ("qwen3-tts/output")

/-- `OUTPUT_DIR = os.path.expanduser("~/.clawdbot/media/tts")` in speak.py
(renamed here to avoid clashing with the server constant). -/
def SPEAK_OUTPUT_DIR : String := joinPath HOME (".clawdbot/media/tts")

/-- The parsed content of a `meta.json` record, as clone_voice writes it. -/
structure Meta where
  name : String
  voice_id : String
  audio : String
deriving DecidableEq, Repr

/-- A `meta.json` file on disk: either it parses to a record or it is
corrupt (raw bytes that `json.load` rejects). -/
inductive MetaFile where
  | valid : Meta → MetaFile
  | corrupt : String → MetaFile
deriving DecidableEq, Repr

/-- Contents of one voice-profile directory under `VOICES_DIR`:
an optional `reference.wav` (bytes) and an optional `meta.json`. -/
structure VoiceDir where
  refAudio : Option (List Nat) := none
  metaJson : Option MetaFile := none
deriving DecidableEq, Repr

/-- The persisted voice registry: directory name to directory contents. -/
abbrev Registry := List (String × VoiceDir)

/-- Look up a profile directory by name. -/
def lookupDir (reg : Registry) (d : String) : Option VoiceDir :=
  (reg.find? (fun e => e.1 == d)).map (fun e => e.2)

/-- Overwrite (or create) the directory `d` with contents `v`. -/
def setDir (reg : Registry) (d : String) (v : VoiceDir) : Registry :=
  reg.filter (fun e => !(e.1 == d)) ++ [(d, v)]

/-- `os.makedirs(voice_dir, exist_ok=True)`: create the directory when it
is absent, keep it untouched when it already exists. -/
def makedirs (reg : Registry) (d : String) : Registry :=
  match lookupDir reg d with
  | some _ => reg
  | none => reg ++ [(d, {})]

/-- `audio_file.save(audio_path)`: write `reference.wav` into directory `d`,
overwriting any previous bytes, leaving `meta.json` as it was. -/
def saveAudio (reg : Registry) (d : String) (bytes : List Nat) : Registry :=
  let v := (lookupDir reg d).getD {}
  setDir reg d { v with refAudio := some bytes }

/-- `json.dump(meta, f)` into `meta.json` of directory `d`: the record holds
the name, the id and the absolute audio path, exactly as clone_voice builds
it. -/
def writeMeta (reg : Registry) (d : String) (nm : String) : Registry :=
  let v := (lookupDir reg d).getD {}
  setDir reg d
    { v with
      metaJson := some (MetaFile.valid
        { name := nm
          voice_id := d
          audio := joinPath (joinPath VOICES_DIR d) ("reference.wav") }) }

/-- `json.load` on a `meta.json` file: a corrupt file raises
`JSONDecodeError` (message abstracted, carrying the raw content). -/
def json_load (mf : MetaFile) : Except String Meta :=
  match mf with
  | .valid m => .ok m
  | .corrupt raw => .error ("invalid json: " ++ raw)

/-- `list_voices` (server.py line 121): iterate the registry directories;
a directory without `meta.json` is skipped; a present `meta.json` is parsed
with `json.load`, whose exception propagates out of the handler. -/
def list_voices : Registry → Except String (List Meta)
  | [] => .ok []
  | (_, v) :: rest =>
    match v.metaJson with
    | none => list_voices rest
    | some mf =>
      match json_load mf with
      | .error e => .error e
      | .ok m => (list_voices rest).map (fun ms => m :: ms)

/-- Whether one `meta.json` file parses. -/
def metaParses (mf : MetaFile) : Bool :=
  match mf with
  | .valid _ => true
  | .corrupt _ => false

/-- Whether every `meta.json` present in the registry parses. -/
def allParsable (reg : Registry) : Bool :=
  reg.all (fun e => ((e.2.metaJson).map metaParses).getD true)

/-- The metadata records of exactly the directories holding a valid
`meta.json`, in registry order. -/
def validMetas (reg : Registry) : List Meta :=
  reg.filterMap
    (fun e =>
      match e.2.metaJson with
      | some (.valid m) => some m
      | _ => none)

/-- No directory holds a `meta.json` without a `reference.wav`. -/
def noMetaWithoutAudio (reg : Registry) : Bool :=
  reg.all (fun e => !((e.2.metaJson).isSome && (e.2.refAudio).isNone))

/-- Every directory holds its `reference.wav` and its `meta.json` as a
pair: both present or both absent. -/
def pairConsistent (reg : Registry) : Bool :=
  reg.all (fun e => (e.2.metaJson).isSome == (e.2.refAudio).isSome)

/-- A `/v1/clone` request: `request.files` as a map from part name to bytes,
and the optional `name` form field. -/
structure CloneRequest where
  files : List (String × List Nat)
  formName : Option String

/-- `request.files` lookup. -/
def lookupFile (files : List (String × List Nat)) (k : String) : Option (List Nat) :=
  (files.find? (fun e => e.1 == k)).map (fun e => e.2)

/-- Server-side state threaded through clone calls: the registry plus the
stream of `str(uuid.uuid4())[:8]` draws, indexed by how many have been
consumed so far. -/
structure CloneState where
  reg : Registry
  idTokens : Nat → String
  nextTok : Nat

/-- The JSON body of a `/v1/clone` response together with its status code. -/
structure CloneResponse where
  status : Nat
  voice_id : Option String
  name : Option String
  errorMsg : Option String
deriving DecidableEq, Repr

/-- The default name `f"voice_{int(time.time())}"`. -/
def defaultName (now : Nat) : String :=
  "voice_" ++ toString now

/-- The path `os.path.join(VOICES_DIR, voice_id, "reference.wav")` that
`text_to_speech` probes for a cloned voice. -/
def refAudioPath (voice_id : String) : String :=
  joinPath (joinPath VOICES_DIR voice_id) ("reference.wav")

/-- The successive registry states produced by the body of `clone_voice`
once validation has passed: initial, after `os.makedirs`, after
`audio_file.save`, after the `meta.json` dump.  The writes happen in this
order in the source (lines 60, 63, 67). -/
def cloneRegSteps (voice_id : String) (bytes : List Nat) (nm : String)
    (reg : Registry) : List Registry :=
  let r1 := makedirs reg voice_id
  let r2 := saveAudio r1 voice_id bytes
  let r3 := writeMeta r2 voice_id nm
  [reg, r1, r2, r3]

/-- All registry states observable while one `clone_voice` call runs
(just the initial state when the request is rejected). -/
def cloneTrace (now : Nat) (st : CloneState) (req : CloneRequest) : List Registry :=
  match lookupFile req.files ("audio") with
  | none => [st.reg]
  | some bytes =>
    cloneRegSteps (st.idTokens st.nextTok) bytes
      (req.formName.getD (defaultName now)) st.reg

/-- `clone_voice` (server.py line 49): reject with 400 when the `audio`
part is absent; otherwise draw the next id token, create the directory,
save the audio, dump the metadata and answer 200 with id and name. -/
def clone_voice (now : Nat) (st : CloneState) (req : CloneRequest) :
    CloneResponse × CloneState :=
  match lookupFile req.files ("audio") with
  | none =>
    ({ status := 400, voice_id := none, name := none
       errorMsg := some ("No audio file") }, st)
  | some bytes =>
    let nm := req.formName.getD (defaultName now)
    let vid := st.idTokens st.nextTok
    let r1 := makedirs st.reg vid
    let r2 := saveAudio r1 vid bytes
    let r3 := writeMeta r2 vid nm
    ({ status := 200, voice_id := some vid, name := some nm, errorMsg := none },
     { st with reg := r3, nextTok := st.nextTok + 1 })

/-- A `/v1/tts` request body: `data.get("text", "")` and
`data.get("voice_id", "")`, absent fields already defaulted to `""`. -/
structure TtsRequest where
  text : String
  voice_id : String
deriving DecidableEq, Repr

/-- Which inputs are fed to the model: conditioned on a reference audio
path, or text only. -/
inductive SynthMode where
  | conditioned : String → SynthMode
  | unconditioned : SynthMode
deriving DecidableEq, Repr

/-- Observable outcome of one `/v1/tts` call: HTTP status, error message
(if any), the synthesis mode actually used (none when no inference was
attempted), and the output file written (if any). -/
structure TtsOutcome where
  status : Nat
  errorMsg : Option String
  modeUsed : Option SynthMode
  outputWritten : Option String
deriving DecidableEq, Repr

/-- The output path `os.path.join(OUTPUT_DIR, f"memo_{int(time.time())}.wav")`. -/
def outputPath (now : Nat) : String :=
  joinPath OUTPUT_DIR ("memo_" ++ toString now ++ ".wav")

/-- The branch at server.py line 87: condition on
`VOICES_DIR/voice_id/reference.wav` exactly when `voice_id` is non-empty
and that joined path exists; otherwise synthesise unconditioned. -/
def ttsMode (fs : Fs) (req : TtsRequest) : SynthMode :=
  if (req.voice_id != "") && pathExists fs (refAudioPath req.voice_id) then
    SynthMode.conditioned (refAudioPath req.voice_id)
  else
    SynthMode.unconditioned

/-- The body of the `try` block of `text_to_speech` (server.py lines
86-116): choose the synthesis mode, run inference and decoding (the
`infer` oracle), write the WAV (the `writeWav` oracle); any step may raise,
and the first raised message is the result. -/
def tryBody (fs : Fs) (infer : SynthMode → Except String (List Int))
    (writeWav : String → List Int → Except String Unit)
    (now : Nat) (req : TtsRequest) : Except String String :=
  match infer (ttsMode fs req) with
  | .error e => .error e
  | .ok audio =>
    match writeWav (outputPath now) audio with
    | .error e => .error e
    | .ok _ => .ok (outputPath now)

/-- `text_to_speech` (server.py line 72): empty text is rejected with 400
before the `try` block; any exception raised inside the `try` block is
caught and answered as a 500 carrying `str(e)`. -/
def text_to_speech (fs : Fs) (infer : SynthMode → Except String (List Int))
    (writeWav : String → List Int → Except String Unit)
    (now : Nat) (req : TtsRequest) : TtsOutcome :=
  if req.text = "" then
    { status := 400, errorMsg := some ("No text provided")
      modeUsed := none, outputWritten := none }
  else
    match tryBody fs infer writeWav now req with
    | .error e =>
      { status := 500, errorMsg := some e
        modeUsed := some (ttsMode fs req), outputWritten := none }
    | .ok p =>
      { status := 200, errorMsg := none
        modeUsed := some (ttsMode fs req), outputWritten := some p }

/-- The serving loop over a sequence of `/v1/tts` requests (each tagged
with its arrival time): every request is handled, whatever the previous
outcomes were. -/
def serveTts (fs : Fs) (infer : SynthMode → Except String (List Int))
    (writeWav : String → List Int → Except String Unit) :
    List (Nat × TtsRequest) → List TtsOutcome
  | [] => []
  | (now, r) :: rest =>
    text_to_speech fs infer writeWav now r :: serveTts fs infer writeWav rest

/-- The model runtime lifecycle visible in server.py: the module globals
`model`/`processor` are `None` until `load_model` succeeds. -/
inductive ModelRuntimeState where
  | unloaded
  | ready
deriving DecidableEq, Repr

/-- The `/health` response: status code plus the two JSON fields. -/
structure HealthResponse where
  status : Nat
  body_status : String
  body_model : String
deriving DecidableEq, Repr

/-- `health` (server.py line 45): a constant 200 `{"status": "ok"}` answer;
the handler never consults the runtime state. -/
def health (_m : ModelRuntimeState) : HealthResponse :=
  { status := 200, body_status := "ok", body_model := "qwen3-tts-1.7b" }

/-- Whether a health answer reads as ready. -/
def healthReportsReady (m : ModelRuntimeState) : Bool :=
  ((health m).status == 200) && ((health m).body_status == "ok")

/-- The serving process state once `app.run` is entered. -/
structure ServerBoot where
  runtime : ModelRuntimeState
deriving DecidableEq, Repr

/-- The `__main__` block (server.py line 132): `load_model()` runs before
`app.run`; when loading fails the exception propagates and the process
never serves (no `ServerBoot` state exists). -/
def serverMain (loadOk : Bool) : Option ServerBoot :=
  if loadOk then some { runtime := ModelRuntimeState.ready } else none

/-- The client-observed result of the POST to `/v1/tts`: body bytes on
success, an `HTTPError` with code and body, or any other transport
exception with a message. -/
inductive TtsHttpResult where
  | success : List Nat → TtsHttpResult
  | httpError : Nat → String → TtsHttpResult
  | transportError : String → TtsHttpResult
deriving DecidableEq, Repr

/-- Observable outcome of one client `generate` call: exit code (0 when the
call returns normally and `main` falls through), stdout and stderr lines,
the `/v1/tts` payload actually sent (none when no request went out), and
the local file written. -/
structure GenOutcome where
  exitCode : Nat
  stdoutLines : List String
  stderrLines : List String
  requestPayload : Option (String × Option String)
  fileWritten : Option String
deriving DecidableEq, Repr

/-- `generate` (speak.py line 42): gate on `check_server()` (`serverUp` is
its result); when it fails, print guidance on stderr and `sys.exit(1)`
without sending the request or touching the output directory; on success
write `tts_{now}.wav` and print its path as the only stdout line; on
`HTTPError` or any other exception, print a diagnostic on stderr and exit 1. -/
def generate (serverUp : Bool) (resp : TtsHttpResult) (now : Nat)
    (text : String) (vid : Option String) : GenOutcome :=
  if !serverUp then
    { exitCode := 1
      stdoutLines := []
      stderrLines :=
        ["Erreur: serveur local non démarré. Lance VoiceCloneMemo ou:",
         "  bash ~/.voiceclonememo/start.sh"]
      requestPayload := none
      fileWritten := none }
  else
    match resp with
    | .success _ =>
      { exitCode := 0
        stdoutLines := [joinPath SPEAK_OUTPUT_DIR ("tts_" ++ toString now ++ ".wav")]
        stderrLines := []
        requestPayload := some (text, vid)
        fileWritten := some (joinPath SPEAK_OUTPUT_DIR ("tts_" ++ toString now ++ ".wav")) }
    | .httpError code body =>
      { exitCode := 1
        stdoutLines := []
        stderrLines := ["Erreur API: " ++ toString code ++ " - " ++ body]
        requestPayload := some (text, vid)
        fileWritten := none }
    | .transportError m =>
      { exitCode := 1
        stdoutLines := []
        stderrLines := ["Erreur: " ++ m]
        requestPayload := some (text, vid)
        fileWritten := none }

/-! Helper lemmas about the registry operations. -/

theorem find?_filter_ne (reg : Registry) (d : String) :
    (reg.filter (fun e => !(e.1 == d))).find? (fun e => e.1 == d) = none := by
  induction reg with
  | nil => rfl
  | cons e rest ih =>
    by_cases h : e.1 = d
    · simp [List.filter_cons, h, ih]
    · simp [List.filter_cons, h, List.find?_cons, ih]

theorem lookupDir_setDir (reg : Registry) (d : String) (v : VoiceDir) :
    lookupDir (setDir reg d v) d = some v := by
  unfold lookupDir setDir
  rw [List.find?_append, find?_filter_ne]
  simp [List.find?_cons]

theorem all_setDir {p : String × VoiceDir → Bool} {reg : Registry} {d : String}
    {v : VoiceDir} (h1 : reg.all p = true) (h2 : p (d, v) = true) :
    (setDir reg d v).all p = true := by
  unfold setDir
  rw [List.all_append]
  simp only [Bool.and_eq_true]
  constructor
  · rw [List.all_eq_true] at h1 ⊢
    intro x hx
    exact h1 x (List.mem_of_mem_filter hx)
  · simp [h2]

theorem all_makedirs {p : String × VoiceDir → Bool} {reg : Registry} {d : String}
    (h1 : reg.all p = true) (h2 : p (d, {}) = true) :
    (makedirs reg d).all p = true := by
  unfold makedirs
  cases h : lookupDir reg d with
  | some v => exact h1
  | none =>
    rw [List.all_append]
    simp [h1, h2]

/-! Claim theorems. -/

/-- C1, counterexample: the claim says the Health response reflects the
runtime's readiness in every process state, reporting not-ready before a
successful load.  It is false: the handler at server.py line 45 returns the
constant ready answer, so in the unloaded state health still reads as
ready. -/
theorem C1_health_counterexample :
    ¬ ∀ m : ModelRuntimeState, (healthReportsReady m = true ↔ m = ModelRuntimeState.ready) := by
  intro h
  exact absurd ((h ModelRuntimeState.unloaded).mp (by decide)) (by decide)

/-- C1, amended: the health handler returns the ready answer regardless of
the runtime state; readiness is reflected only operationally, because the
`__main__` block loads the model before `app.run`, so every state in which
the process serves requests at all has the runtime ready. -/
theorem C1_health_amended (loadOk : Bool) (s : ServerBoot) (m : ModelRuntimeState)
    (h : serverMain loadOk = some s) :
    s.runtime = ModelRuntimeState.ready ∧ healthReportsReady m = true := by
  constructor
  · cases loadOk with
    | false => simp [serverMain] at h
    | true =>
      simp [serverMain] at h
      rw [← h]
  · cases m <;> rfl

/-- C1, witness: a successful boot reaches the ready serving state while
the handler also reads ready in the unloaded state. -/
theorem C1_health_witness :
    serverMain true = some { runtime := ModelRuntimeState.ready } ∧
    ({ runtime := ModelRuntimeState.ready } : ServerBoot).runtime = ModelRuntimeState.ready ∧
    healthReportsReady ModelRuntimeState.unloaded = true :=
  ⟨rfl, C1_health_amended true { runtime := ModelRuntimeState.ready }
    ModelRuntimeState.unloaded rfl⟩

/-- C7: a `/v1/tts` request with empty (or absent, hence defaulted-empty)
text is answered 400 before the `try` block: no synthesis mode is chosen,
no output file is written, and the outcome is independent of the
filesystem, the model and the WAV writer, i.e. no inference is attempted
and no state is touched. -/
theorem C7_empty_text (fs fs2 : Fs) (infer infer2 : SynthMode → Except String (List Int))
    (w w2 : String → List Int → Except String Unit) (now now2 : Nat)
    (req : TtsRequest) (h : req.text = "") :
    text_to_speech fs infer w now req
      = { status := 400, errorMsg := some ("No text provided")
          modeUsed := none, outputWritten := none } ∧
    text_to_speech fs infer w now req = text_to_speech fs2 infer2 w2 now2 req := by
  constructor
  · simp [text_to_speech, h]
  · simp [text_to_speech, h]

/-- C7, witness: the empty-text request is rejected identically under a
healthy pipeline and a failing one. -/
theorem C7_empty_text_witness :
    text_to_speech [] (fun _ => Except.ok []) (fun _ _ => Except.ok ()) 0
        { text := "", voice_id := "" }
      = { status := 400, errorMsg := some ("No text provided")
          modeUsed := none, outputWritten := none } ∧
    text_to_speech [] (fun _ => Except.ok []) (fun _ _ => Except.ok ()) 0
        { text := "", voice_id := "" }
      = text_to_speech [normPath (refAudioPath ("x"))] (fun _ => Except.error ("boom"))
          (fun _ _ => Except.error ("disk full")) 9 { text := "", voice_id := "" } :=
  C7_empty_text [] [normPath (refAudioPath ("x"))] (fun _ => Except.ok [])
    (fun _ => Except.error ("boom")) (fun _ _ => Except.ok ())
    (fun _ _ => Except.error ("disk full")) 0 9 { text := "", voice_id := "" } rfl

/-- C9: when the health gate fails, the client `generate` exits 1, prints
guidance on stderr (two lines), sends no `/v1/tts` request and writes no
file and nothing to stdout; when the gate passes and the call succeeds, the
freshly written file path is the sole stdout line and the exit code is 0. -/
theorem C9_generate_gate (resp : TtsHttpResult) (now : Nat) (text : String)
    (vid : Option String) (audio : List Nat) :
    (generate false resp now text vid).exitCode = 1 ∧
    (generate false resp now text vid).requestPayload = none ∧
    (generate false resp now text vid).fileWritten = none ∧
    (generate false resp now text vid).stdoutLines = [] ∧
    (generate false resp now text vid).stderrLines.length = 2 ∧
    (generate true (TtsHttpResult.success audio) now text vid).stdoutLines
      = [joinPath SPEAK_OUTPUT_DIR ("tts_" ++ toString now ++ ".wav")] ∧
    (generate true (TtsHttpResult.success audio) now text vid).fileWritten
      = some (joinPath SPEAK_OUTPUT_DIR ("tts_" ++ toString now ++ ".wav")) ∧
    (generate true (TtsHttpResult.success audio) now text vid).exitCode = 0 :=
  ⟨rfl, rfl, rfl, rfl, rfl, rfl, rfl, rfl⟩

/-- C10: the `voice_id` of a `/v1/tts` request is joined under `VOICES_DIR`
without confinement: for a `voice_id` holding `..` segments the resolved
`reference.wav` path lies outside the voices directory, and when such an
outside file exists the handler conditions synthesis on it. -/
theorem C10_path_escape :
    ∃ vid : String,
      ("..") ∈ splitPath vid ∧
      insideDir VOICES_DIR (refAudioPath vid) = false ∧
      (text_to_speech [normPath (refAudioPath vid)]
          (fun _ => Except.ok [0]) (fun _ _ => Except.ok ()) 5
          { text := "hi", voice_id := vid }).modeUsed
        = some (SynthMode.conditioned (refAudioPath vid)) :=
  ⟨"../../secret", by decide, by decide, by decide⟩

/-- C2: a `/v1/tts` request with non-empty text never fails because of
voice resolution: the chosen mode is conditioned on
`VOICES_DIR/voice_id/reference.wav` exactly when `voice_id` is non-empty
and that file exists, and unconditioned otherwise (absent, empty or
unresolvable ids included); under any succeeding pipeline the answer is
200 whatever the resolution outcome was. -/
theorem C2_voice_fallback (fs : Fs) (infer : SynthMode → Except String (List Int))
    (w : String → List Int → Except String Unit) (now : Nat) (req : TtsRequest)
    (a : List Int) (h : req.text ≠ "")
    (ha : infer (ttsMode fs req) = Except.ok a)
    (hw : w (outputPath now) a = Except.ok ()) :
    (text_to_speech fs infer w now req).status = 200 ∧
    (text_to_speech fs infer w now req).modeUsed
      = some (if (req.voice_id != "") && pathExists fs (refAudioPath req.voice_id)
          then SynthMode.conditioned (refAudioPath req.voice_id)
          else SynthMode.unconditioned) := by
  have hb : tryBody fs infer w now req = Except.ok (outputPath now) := by
    simp [tryBody, ha, hw]
  constructor
  · simp [text_to_speech, h, hb]
  · simp [text_to_speech, h, hb, ttsMode]

/-- C2, witness: an unresolvable id falls back to unconditioned synthesis
and still answers 200; a resolvable id conditions on its reference audio. -/
theorem C2_voice_fallback_witness :
    ((text_to_speech [] (fun _ => Except.ok [1]) (fun _ _ => Except.ok ()) 3
        { text := "bonjour", voice_id := "ghost123" }).status = 200 ∧
     (text_to_speech [] (fun _ => Except.ok [1]) (fun _ _ => Except.ok ()) 3
        { text := "bonjour", voice_id := "ghost123" }).modeUsed
       = some (if (("ghost123" : String) != "") && pathExists [] (refAudioPath ("ghost123"))
           then SynthMode.conditioned (refAudioPath ("ghost123"))
           else SynthMode.unconditioned)) ∧
    ((text_to_speech [normPath (refAudioPath ("abc12345"))]
        (fun _ => Except.ok [1]) (fun _ _ => Except.ok ()) 3
        { text := "bonjour", voice_id := "abc12345" }).status = 200 ∧
     (text_to_speech [normPath (refAudioPath ("abc12345"))]
        (fun _ => Except.ok [1]) (fun _ _ => Except.ok ()) 3
        { text := "bonjour", voice_id := "abc12345" }).modeUsed
       = some (if (("abc12345" : String) != "")
             && pathExists [normPath (refAudioPath ("abc12345"))] (refAudioPath ("abc12345"))
           then SynthMode.conditioned (refAudioPath ("abc12345"))
           else SynthMode.unconditioned)) :=
  ⟨C2_voice_fallback [] (fun _ => Except.ok [1]) (fun _ _ => Except.ok ()) 3
      { text := "bonjour", voice_id := "ghost123" } [1] (by decide) rfl rfl,
   C2_voice_fallback [normPath (refAudioPath ("abc12345"))]
      (fun _ => Except.ok [1]) (fun _ _ => Except.ok ()) 3
      { text := "bonjour", voice_id := "abc12345" } [1] (by decide) rfl rfl⟩

/-- C8: any failure raised inside the `try` block of `text_to_speech`
(inference, decoding or the WAV write) is caught at the handler boundary
and answered as a 500 carrying the underlying message, and the serving
loop goes on to handle every subsequent request. -/
theorem C8_failure_caught (fs : Fs) (infer : SynthMode → Except String (List Int))
    (w : String → List Int → Except String Unit) (now : Nat) (req : TtsRequest)
    (reqs : List (Nat × TtsRequest)) (e : String) (h : req.text ≠ "")
    (he : tryBody fs infer w now req = Except.error e) :
    text_to_speech fs infer w now req
      = { status := 500, errorMsg := some e
          modeUsed := some (ttsMode fs req), outputWritten := none } ∧
    serveTts fs infer w ((now, req) :: reqs)
      = text_to_speech fs infer w now req :: serveTts fs infer w reqs ∧
    (serveTts fs infer w ((now, req) :: reqs)).length = reqs.length + 1 := by
  refine ⟨by simp [text_to_speech, h, he], rfl, ?_⟩
  simp only [serveTts, List.length_cons]
  induction reqs with
  | nil => rfl
  | cons r rest ih =>
    obtain ⟨n2, r2⟩ := r
    simp only [serveTts, List.length_cons] at ih ⊢
    omega

/-- C8, witness: a concrete inference failure is answered as a 500 with
its message while the next request is still served. -/
theorem C8_failure_caught_witness :
    text_to_speech [] (fun _ => Except.error ("CUDA out of memory"))
        (fun _ _ => Except.ok ()) 4 { text := "hello", voice_id := "" }
      = { status := 500, errorMsg := some ("CUDA out of memory")
          modeUsed := some (ttsMode [] { text := "hello", voice_id := "" })
          outputWritten := none } ∧
    serveTts [] (fun _ => Except.error ("CUDA out of memory")) (fun _ _ => Except.ok ())
        ((4, { text := "hello", voice_id := "" }) :: [(5, { text := "encore", voice_id := "" })])
      = text_to_speech [] (fun _ => Except.error ("CUDA out of memory"))
          (fun _ _ => Except.ok ()) 4 { text := "hello", voice_id := "" }
        :: serveTts [] (fun _ => Except.error ("CUDA out of memory")) (fun _ _ => Except.ok ())
          [(5, { text := "encore", voice_id := "" })] ∧
    (serveTts [] (fun _ => Except.error ("CUDA out of memory")) (fun _ _ => Except.ok ())
        ((4, { text := "hello", voice_id := "" }) :: [(5, { text := "encore", voice_id := "" })])).length
      = ([(5, { text := "encore", voice_id := "" })] : List (Nat × TtsRequest)).length + 1 :=
  C8_failure_caught [] (fun _ => Except.error ("CUDA out of memory")) (fun _ _ => Except.ok ())
    4 { text := "hello", voice_id := "" } [(5, { text := "encore", voice_id := "" })]
    ("CUDA out of memory") (by decide) rfl

/-- C5, counterexample: the claim says a clone request is rejected exactly
when the audio payload is missing or empty.  It is false: the handler at
server.py line 52 only checks that the `audio` part is present, so a
present-but-empty payload is accepted with 200 and stored. -/
theorem C5_clone_counterexample :
    lookupFile ([("audio", ([] : List Nat))]) ("audio") = some [] ∧
    (clone_voice 7 { reg := [], idTokens := fun _ => "abc12345", nextTok := 0 }
        { files := [("audio", [])], formName := none }).1
      = { status := 200, voice_id := some ("abc12345")
          name := some ("voice_7"), errorMsg := none } :=
  ⟨rfl, by decide⟩

/-- C5, amended: a clone request is rejected with 400 exactly when the
`audio` file part is absent; whenever the part is present (even with empty
bytes) the call answers 200 with the freshly drawn voiceId and the
caller-supplied name, defaulted to `voice_{timestamp}` when absent. -/
theorem C5_clone_amended (now : Nat) (st : CloneState) (req : CloneRequest) :
    ((clone_voice now st req).1.status = 400 ↔ lookupFile req.files ("audio") = none) ∧
    ((clone_voice now st req).1.status = 400 ∨
      ((clone_voice now st req).1.status = 200 ∧
       (clone_voice now st req).1.voice_id = some (st.idTokens st.nextTok) ∧
       (clone_voice now st req).1.name = some (req.formName.getD (defaultName now)))) := by
  cases hl : lookupFile req.files ("audio") with
  | none =>
    constructor
    · simp [clone_voice, hl]
    · left
      simp [clone_voice, hl]
  | some bytes =>
    constructor
    · simp [clone_voice, hl]
    · right
      simp [clone_voice, hl]

/-- C5, witness: a request carrying audio bytes and no name is accepted
with the drawn id and the timestamp-defaulted name. -/
theorem C5_clone_witness :
    ((clone_voice 3 { reg := [], idTokens := fun _ => "zz11zz11", nextTok := 0 }
        { files := [("audio", [5])], formName := none }).1.status = 400
      ↔ lookupFile ([("audio", [5])]) ("audio") = none) ∧
    ((clone_voice 3 { reg := [], idTokens := fun _ => "zz11zz11", nextTok := 0 }
        { files := [("audio", [5])], formName := none }).1.status = 400 ∨
      ((clone_voice 3 { reg := [], idTokens := fun _ => "zz11zz11", nextTok := 0 }
          { files := [("audio", [5])], formName := none }).1.status = 200 ∧
       (clone_voice 3 { reg := [], idTokens := fun _ => "zz11zz11", nextTok := 0 }
          { files := [("audio", [5])], formName := none }).1.voice_id = some ("zz11zz11") ∧
       (clone_voice 3 { reg := [], idTokens := fun _ => "zz11zz11", nextTok := 0 }
          { files := [("audio", [5])], formName := none }).1.name
         = some ((none : Option String).getD (defaultName 3)))) :=
  C5_clone_amended 3 { reg := [], idTokens := fun _ => "zz11zz11", nextTok := 0 }
    { files := [("audio", [5])], formName := none }

/-- C3, counterexample: the claim says id allocation is collision-free with
regeneration on collision.  It is false: clone_voice takes `uuid.uuid4()[:8]`
as drawn, with no collision check, so when the generator repeats a token two
successful registrations return the same voiceId (and the second overwrites
the first profile directory). -/
theorem C3_unique_id_counterexample :
    ((clone_voice 1 { reg := [], idTokens := fun _ => "dupdupdu", nextTok := 0 }
        { files := [("audio", [3])], formName := some ("A") }).1.status = 200) ∧
    ((clone_voice 2 (clone_voice 1 { reg := [], idTokens := fun _ => "dupdupdu", nextTok := 0 }
          { files := [("audio", [3])], formName := some ("A") }).2
        { files := [("audio", [4])], formName := some ("B") }).1.status = 200) ∧
    (clone_voice 1 { reg := [], idTokens := fun _ => "dupdupdu", nextTok := 0 }
        { files := [("audio", [3])], formName := some ("A") }).1.voice_id
      = (clone_voice 2 (clone_voice 1 { reg := [], idTokens := fun _ => "dupdupdu", nextTok := 0 }
            { files := [("audio", [3])], formName := some ("A") }).2
          { files := [("audio", [4])], formName := some ("B") }).1.voice_id :=
  ⟨by decide, by decide, by decide⟩

/-- C3, amended: each successful clone call consumes exactly one token of
the id generator with no collision check, so two successive successful
registrations return distinct voiceIds exactly when the two consumed
generator tokens are distinct. -/
theorem C3_unique_id_amended (now1 now2 : Nat) (st : CloneState) (req1 req2 : CloneRequest)
    (h1 : (clone_voice now1 st req1).1.status = 200)
    (h2 : (clone_voice now2 (clone_voice now1 st req1).2 req2).1.status = 200)
    (hids : st.idTokens st.nextTok ≠ st.idTokens (st.nextTok + 1)) :
    (clone_voice now1 st req1).1.voice_id
      ≠ (clone_voice now2 (clone_voice now1 st req1).2 req2).1.voice_id := by
  cases ha : lookupFile req1.files ("audio") with
  | none => simp [clone_voice, ha] at h1
  | some b1 =>
    cases hb : lookupFile req2.files ("audio") with
    | none => simp [clone_voice, ha, hb] at h2
    | some b2 =>
      simp only [clone_voice, ha, hb]
      simp only [Option.some.injEq, ne_eq]
      exact hids

/-- C3, witness: with a generator whose consecutive tokens differ, the two
returned ids differ. -/
theorem C3_unique_id_witness :
    (clone_voice 1 { reg := [], idTokens := fun n => toString n, nextTok := 0 }
        { files := [("audio", [3])], formName := some ("A") }).1.voice_id
      ≠ (clone_voice 2 (clone_voice 1 { reg := [], idTokens := fun n => toString n, nextTok := 0 }
            { files := [("audio", [3])], formName := some ("A") }).2
          { files := [("audio", [4])], formName := some ("B") }).1.voice_id :=
  C3_unique_id_amended 1 2 { reg := [], idTokens := fun n => toString n, nextTok := 0 }
    { files := [("audio", [3])], formName := some ("A") }
    { files := [("audio", [4])], formName := some ("B") }
    (by decide) (by decide) (by decide)

/-- C4, counterexample: the claim says a directory with a corrupt metadata
record is silently skipped and listing never errors.  It is false: the
handler at server.py line 128 calls `json.load` unguarded, so a corrupt
`meta.json` raises and the list operation fails. -/
theorem C4_list_counterexample :
    list_voices [("v1", { refAudio := some [0], metaJson := some (MetaFile.corrupt ("oops")) })]
      = Except.error ("invalid json: " ++ "oops") :=
  rfl

/-- C4, amended: listing skips directories without a metadata record, and
when every present record parses it succeeds and returns exactly the
records of the directories holding one; a corrupt record instead makes the
whole operation fail. -/
theorem C4_list_amended (reg : Registry) (h : allParsable reg = true) :
    list_voices reg = Except.ok (validMetas reg) := by
  induction reg with
  | nil => rfl
  | cons e rest ih =>
    obtain ⟨d, v⟩ := e
    simp only [allParsable, List.all_cons, Bool.and_eq_true] at h
    obtain ⟨hpe, hrest⟩ := h
    have ihr := ih hrest
    cases hm : v.metaJson with
    | none =>
      simp only [list_voices, hm, validMetas, List.filterMap_cons]
      simpa [validMetas] using ihr
    | some mf =>
      cases mf with
      | corrupt raw =>
        rw [hm] at hpe
        simp [metaParses] at hpe
      | valid m =>
        simp only [list_voices, hm, json_load, validMetas, List.filterMap_cons]
        rw [show (list_voices rest) = Except.ok (validMetas rest) from ihr]
        simp only [validMetas]
        rfl

/-- C4, witness: a registry mixing a valid record and a record-less
directory lists exactly the valid record. -/
theorem C4_list_witness :
    list_voices
        [("a1", { refAudio := some [1]
                  metaJson := some (MetaFile.valid
                    { name := "Alice", voice_id := "a1", audio := refAudioPath ("a1") }) }),
         ("b2", { refAudio := some [2], metaJson := none })]
      = Except.ok (validMetas
          [("a1", { refAudio := some [1]
                    metaJson := some (MetaFile.valid
                      { name := "Alice", voice_id := "a1", audio := refAudioPath ("a1") }) }),
           ("b2", { refAudio := some [2], metaJson := none })]) :=
  C4_list_amended
    [("a1", { refAudio := some [1]
              metaJson := some (MetaFile.valid
                { name := "Alice", voice_id := "a1", audio := refAudioPath ("a1") }) }),
     ("b2", { refAudio := some [2], metaJson := none })]
    (by decide)

/-- The final registry of a successful clone holds the new directory with
the saved audio bytes and the metadata record pointing at them. -/
theorem lookup_clone_final (reg : Registry) (vid nm : String) (bytes : List Nat) :
    lookupDir (writeMeta (saveAudio (makedirs reg vid) vid bytes) vid nm) vid
      = some { refAudio := some bytes
               metaJson := some (MetaFile.valid
                 { name := nm, voice_id := vid, audio := refAudioPath vid }) } := by
  simp only [writeMeta, saveAudio, lookupDir_setDir, Option.getD_some, refAudioPath]

/-- Along the write sequence of one clone call, no registry state ever
holds a metadata record without its reference audio: the audio is saved
strictly before the record. -/
theorem noMWA_steps (reg : Registry) (vid nm : String) (bytes : List Nat)
    (h : noMetaWithoutAudio reg = true) :
    (cloneRegSteps vid bytes nm reg).all noMetaWithoutAudio = true := by
  have h1 : noMetaWithoutAudio (makedirs reg vid) = true :=
    all_makedirs h rfl
  have h2 : noMetaWithoutAudio (saveAudio (makedirs reg vid) vid bytes) = true := by
    simp only [saveAudio]
    exact all_setDir h1 (by simp)
  have hv2 : lookupDir (saveAudio (makedirs reg vid) vid bytes) vid
      = some { (lookupDir (makedirs reg vid) vid).getD {} with refAudio := some bytes } := by
    simp only [saveAudio, lookupDir_setDir]
  have h3 : noMetaWithoutAudio
      (writeMeta (saveAudio (makedirs reg vid) vid bytes) vid nm) = true := by
    simp only [writeMeta]
    rw [hv2]
    simp only [Option.getD_some]
    exact all_setDir h2 rfl
  simp [cloneRegSteps, h, h1, h2, h3]

/-- C6, counterexample: the claim says audio and metadata are persisted
atomically as a pair, with no observable state holding one without the
other.  It is false: clone_voice saves `reference.wav` (line 63) strictly
before dumping `meta.json` (line 67), so the write sequence passes through
a persisted state whose directory holds audio and no metadata. -/
theorem C6_pairing_counterexample :
    (cloneTrace 0 { reg := [], idTokens := fun _ => "abcd1234", nextTok := 0 }
        { files := [("audio", [1, 2])], formName := some ("Alice") }).all pairConsistent
      = false ∧
    (cloneTrace 0 { reg := [], idTokens := fun _ => "abcd1234", nextTok := 0 }
        { files := [("audio", [1, 2])], formName := some ("Alice") })[2]?
      = some [("abcd1234", { refAudio := some [1, 2], metaJson := none })] :=
  ⟨by decide, by decide⟩

/-- C6, amended: the pair is written sequentially, audio first, so the
one-sided state that is reachable is audio-without-metadata; a metadata
record without its audio is never persisted at any point of the sequence,
and the completed call leaves the new directory holding exactly the audio
bytes and the metadata record as a pair. -/
theorem C6_pairing_amended (now : Nat) (st : CloneState) (req : CloneRequest)
    (bytes : List Nat) (h : noMetaWithoutAudio st.reg = true)
    (ha : lookupFile req.files ("audio") = some bytes) :
    (cloneTrace now st req).all noMetaWithoutAudio = true ∧
    lookupDir ((clone_voice now st req).2.reg) (st.idTokens st.nextTok)
      = some { refAudio := some bytes
               metaJson := some (MetaFile.valid
                 { name := req.formName.getD (defaultName now)
                   voice_id := st.idTokens st.nextTok
                   audio := refAudioPath (st.idTokens st.nextTok) }) } := by
  constructor
  · simp only [cloneTrace, ha]
    exact noMWA_steps st.reg (st.idTokens st.nextTok)
      (req.formName.getD (defaultName now)) bytes h
  · simp only [clone_voice, ha]
    exact lookup_clone_final st.reg (st.idTokens st.nextTok)
      (req.formName.getD (defaultName now)) bytes

/-- C6, witness: a concrete clone run never passes through a
metadata-without-audio state and ends with the complete pair. -/
theorem C6_pairing_witness :
    (cloneTrace 0 { reg := [], idTokens := fun _ => "abcd1234", nextTok := 0 }
        { files := [("audio", [1, 2])], formName := some ("Alice") }).all noMetaWithoutAudio
      = true ∧
    lookupDir ((clone_voice 0 { reg := [], idTokens := fun _ => "abcd1234", nextTok := 0 }
        { files := [("audio", [1, 2])], formName := some ("Alice") }).2.reg) ("abcd1234")
      = some { refAudio := some [1, 2]
               metaJson := some (MetaFile.valid
                 { name := (some ("Alice")).getD (defaultName 0)
                   voice_id := "abcd1234"
                   audio := refAudioPath ("abcd1234") }) } :=
  C6_pairing_amended 0 { reg := [], idTokens := fun _ => "abcd1234", nextTok := 0 }
    { files := [("audio", [1, 2])], formName := some ("Alice") } [1, 2] rfl rfl
